import Mathlib

/-!
Shallow embedding of the sysbox-fs virtualization core, translated from the Go
source: the `/proc/sys/kernel/panic_on_oops` handler (`KernelPanicOopsHandler`),
the `/proc/sys/fs/binfmt_misc/register` handler (`FsBinfmtRegisterHandler`),
and the fuse adapter's `File.Setattr`.  Go's mutable state (the container
state store and the host filesystem) is passed explicitly as a `World` value;
fallible operations return their error through an `Option`/`Except`-style
field, mirroring Go's `(n int, err error)` return shape.
-/

namespace SysboxFs

/-! ### Models of the Go standard library pieces the handlers use -/

/-- Go `unicode.IsSpace`: the Unicode White_Space property, i.e. Go's
`unicode.White_Space` range table: U+0009–U+000D, U+0020, U+0085, U+00A0,
U+1680, U+2000–U+200A, U+2028, U+2029, U+202F, U+205F, U+3000. -/
def isGoSpace (c : Char) : Bool :=
  decide ((0x09 ≤ c.toNat ∧ c.toNat ≤ 0x0d) ∨ c.toNat = 0x20 ∨
    c.toNat = 0x85 ∨ c.toNat = 0xa0 ∨ c.toNat = 0x1680 ∨
    (0x2000 ≤ c.toNat ∧ c.toNat ≤ 0x200a) ∨ c.toNat = 0x2028 ∨
    c.toNat = 0x2029 ∨ c.toNat = 0x202f ∨ c.toNat = 0x205f ∨
    c.toNat = 0x3000)

/-- Go `strings.TrimSpace`: drop leading and trailing whitespace. -/
def trimSpace (s : String) : String :=
  String.mk (((s.toList.dropWhile isGoSpace).reverse.dropWhile isGoSpace).reverse)

/-- Accumulate a decimal digit string; `none` if a non-digit appears. -/
def parseDecDigits : List Char → Nat → Option Nat
  | [], acc => some acc
  | c :: cs, acc =>
    if c.isDigit then parseDecDigits cs (acc * 10 + (c.toNat - 48)) else none

/-- `math.MaxInt64`: Go's `strconv.Atoi` is `ParseInt(s, 10, 0)` with 64-bit
ints, so values above it (or below `-(int64Max + 1)`) are `ErrRange`. -/
def int64Max : Nat := 9223372036854775807

/-- Go `strconv.Atoi`: an optional sign followed by one or more decimal
digits; anything else — including a value outside the int64 range, which Go
reports as `ErrRange` — is an error (`none`). -/
def atoi (s : String) : Option Int :=
  match s.toList with
  | [] => none
  | '+' :: rest =>
    match rest with
    | [] => none
    | _ => (parseDecDigits rest 0).bind fun n =>
        if n ≤ int64Max then some ((n : Int)) else none
  | '-' :: rest =>
    match rest with
    | [] => none
    | _ => (parseDecDigits rest 0).bind fun n =>
        if n ≤ int64Max + 1 then some (-(n : Int)) else none
  | l => (parseDecDigits l 0).bind fun n =>
      if n ≤ int64Max then some ((n : Int)) else none

/-! ### Errors

Go errors appearing in the sources: `fuse.IOerror{Code: syscall.Exxx}`,
`io.EOF`, and `errors.New("Container not found")`. -/

inductive Errno
  | Eio
  | EINVAL
  | EACCES
  | EPERM
  | ENOENT
deriving DecidableEq, Repr

inductive HandlerErr
  | ioerror (code : Errno)
  | eof
  | containerNotFound
deriving DecidableEq, Repr

/-! ### Container state store (`domain.ContainerStateService`)

`ContainerLookupByPid` resolves a pid to a registered container (via its
pid-namespace inode); each container carries a `(path, name) ↦ value` cache
accessed with `Data`/`SetData`.  The store is the mutable state the handlers
thread through. -/

structure ContainerStore where
  /-- `css.ContainerLookupByPid pid`: the id of the registered container the
  pid belongs to, or `none` when no container record exists. -/
  resolve : Nat → Option Nat
  /-- `cntr.Data (path, name)` for the container with the given id. -/
  data : Nat → String × String → Option String

/-- `cntr.SetData path name v`: update one container's cache at one key. -/
def ContainerStore.setData (st : ContainerStore) (cid : Nat)
    (path name v : String) : ContainerStore :=
  { st with
    data := fun c k =>
      if c = cid ∧ k = (path, name) then some v else st.data c k }

/-- The mutable world a request sees: the container store plus the host
filesystem (per path, the first line `n.ReadLine()` would return; `none`
models a hard host-read error). -/
structure World where
  cntrs : ContainerStore
  host : String → Option String

/-! ### IOnode (`domain.IOnode`)

The per-request node handle: name, path, the open flags recorded by the fuse
adapter, and whether opening the underlying host resource succeeds. -/

structure IOnode where
  name : String
  path : String
  openFlags : Nat
  openOk : Bool

def O_RDONLY : Nat := 0
def O_WRONLY : Nat := 1

/-- Modelled from the spec: the handler utility `copyResultBuffer` is not
under `src/` (only its caller is).  Per the spec's read contract the resolved
value is served in full — "returns exactly V followed by a newline" — so the
model copies the whole result into the caller's buffer and returns its byte
count. -/
def copyResultBuffer (result : String) : Nat × String :=
  (result.utf8ByteSize, result)

/-! ### KernelPanicOopsHandler -/

/-- Result of `KernelPanicOopsHandler.Read`: the Go `(n int, err error)`
pair, the bytes written into the caller's buffer, the updated world, and how
many times the host file was read (0 or 1). -/
structure ReadOut where
  count : Nat
  served : String
  err : Option HandlerErr
  world : World
  hostReads : Nat

/-- `KernelPanicOopsHandler.Read` (fsBinfmtRegister.go:201-251): offsets past
zero are EOF; otherwise resolve the container, serve the cached value if
present, else read the host line once, validate it with `strconv.Atoi`, seed
the cache and serve it. -/
def KernelPanicOopsHandler.Read (n : IOnode) (pid : Nat) (off : Int)
    (w : World) : ReadOut :=
  if off > 0 then
    ⟨0, "", some .eof, w, 0⟩
  else
    match w.cntrs.resolve pid with
    | none => ⟨0, "", some .containerNotFound, w, 0⟩
    | some cid =>
      match w.cntrs.data cid (n.path, n.name) with
      | some data =>
        let r := copyResultBuffer (data ++ "\n")
        ⟨r.1, r.2, none, w, 0⟩
      | none =>
        match w.host n.path with
        | none => ⟨0, "", some (.ioerror .Eio), w, 1⟩
        | some curHostVal =>
          match atoi curHostVal with
          | none => ⟨0, "", some (.ioerror .EINVAL), w, 1⟩
          | some _ =>
            let w' := { w with
              cntrs := w.cntrs.setData cid n.path n.name curHostVal }
            let r := copyResultBuffer (curHostVal ++ "\n")
            ⟨r.1, r.2, none, w', 1⟩

/-- Result of `KernelPanicOopsHandler.Write`: the Go `(n int, err error)`
pair and the updated world. -/
structure WriteOut where
  count : Nat
  err : Option HandlerErr
  world : World

/-- `KernelPanicOopsHandler.Write` (fsBinfmtRegister.go:253-289): trim the
buffer, parse it with `strconv.Atoi`, range-check it against {0,1}, resolve
the container, and store the trimmed value in the container cache; on success
return `len(buf)`. -/
def KernelPanicOopsHandler.Write (n : IOnode) (pid : Nat) (buf : String)
    (w : World) : WriteOut :=
  let newVal := trimSpace buf
  match atoi newVal with
  | none => ⟨0, some (.ioerror .EINVAL), w⟩
  | some newValInt =>
    if newValInt < 0 ∨ newValInt > 1 then
      ⟨0, some (.ioerror .EINVAL), w⟩
    else
      match w.cntrs.resolve pid with
      | none => ⟨0, some .containerNotFound, w⟩
      | some cid =>
        ⟨buf.utf8ByteSize, none,
         { w with cntrs := w.cntrs.setData cid n.path n.name newVal }⟩

/-- `KernelPanicOopsHandler.Open` (fsBinfmtRegister.go:177-192): flags other
than exactly `O_RDONLY` or exactly `O_WRONLY` are EACCES; a failed host open
is Eio; otherwise success (`none`). -/
def KernelPanicOopsHandler.Open (n : IOnode) : Option HandlerErr :=
  if n.openFlags ≠ O_RDONLY ∧ n.openFlags ≠ O_WRONLY then
    some (.ioerror .EACCES)
  else if !n.openOk then
    some (.ioerror .Eio)
  else
    none

/-! ### FsBinfmtRegisterHandler -/

/-- `FsBinfmtRegisterHandler.Lookup` (fsBinfmtRegister.go:29-34): always
`(nil, fuse.IOerror{Code: syscall.ENOENT})`. -/
def FsBinfmtRegisterHandler.Lookup (_n : IOnode) (_pid : Nat) :
    Except HandlerErr Unit :=
  .error (.ioerror .ENOENT)

/-! ### Fuse adapter (`fuse.File`) -/

/-- The error-propagation step of the adapter's `File.Open`: a handler error
other than `io.EOF` aborts the open, so no file handle is produced and no
Read/Write can be issued on that open. -/
def fileOpenResult (handlerErr : Option HandlerErr) : Except HandlerErr Unit :=
  match handlerErr with
  | some e => if e = HandlerErr.eof then .ok () else .error e
  | none => .ok ()

/-- bazil fuse's `SetattrValid` bitmask: the `Size` bit is `1 << 3`, and
`req.Valid.Size()` tests it. -/
def SetattrValid.Size (valid : Nat) : Bool := valid &&& 8 ≠ 0

/-- `File.Setattr` (fuse adapter): requests whose `Valid` mask includes the
size bit return success without applying anything else; all other requests
return `fuse.EPERM`. -/
def File.Setattr (valid : Nat) : Option Errno :=
  if SetattrValid.Size valid then none else some .EPERM

/-! ### Concrete fixtures used by witnesses and counterexamples -/

/-- A world with two registered containers (pid 100 ↦ container 7, pid 200 ↦
container 9), no cached data, and host files whose first line is `"0"`. -/
def w0 : World :=
  { cntrs :=
      { resolve := fun p =>
          if p = 100 then some 7 else if p = 200 then some 9 else none,
        data := fun _ _ => none },
    host := fun _ => some "0" }

/-- Like `w0`, but container 9 already holds the host-seeded value `"0"` for
the panic_on_oops resource. -/
def w1 : World :=
  { cntrs :=
      { resolve := fun p =>
          if p = 100 then some 7 else if p = 200 then some 9 else none,
        data := fun c k =>
          if c = 9 ∧ k = ("/proc/sys/kernel/panic_on_oops", "panic_on_oops")
          then some "0" else none },
    host := fun _ => some "0" }

/-- The panic_on_oops node, opened read-only. -/
def node0 : IOnode :=
  { name := "panic_on_oops", path := "/proc/sys/kernel/panic_on_oops",
    openFlags := 0, openOk := true }

/-- The panic_on_oops node with `O_RDWR` open flags (value 2). -/
def node2 : IOnode :=
  { name := "panic_on_oops", path := "/proc/sys/kernel/panic_on_oops",
    openFlags := 2, openOk := true }

/-! ### Claims -/

/-- The int64 range check is real: a 25-digit host line does not parse
(Go: `ErrRange`), so a Read seeing it takes the EINVAL branch. -/
theorem atoi_rejects_int64_overflow :
    atoi "9999999999999999999999999" = none := by decide

/-- Unicode whitespace beyond ASCII is trimmed, as by `strings.TrimSpace`:
a no-break-space (U+00A0) prefix is stripped before validation. -/
theorem trimSpace_strips_nbsp : trimSpace "\u00A0 1" = "1" := by decide

/-- C1: for the kernel_panic_oops handler, a Read at offset 0 for a pid of a
registered container resolves the value as follows: a cache hit for
(path, name) serves the cached value followed by a newline without reading
the host; a miss reads the host file's first line once, and if it parses as
an integer the cache is seeded with that string and it is served followed by
a newline, while if it does not parse the read fails with EINVAL and the
cache is not seeded. -/
theorem claim_C1_read_resolution
    (n : IOnode) (pid cid : Nat) (w : World)
    (hres : w.cntrs.resolve pid = some cid) :
    (∀ v, w.cntrs.data cid (n.path, n.name) = some v →
      KernelPanicOopsHandler.Read n pid 0 w =
        ⟨(v ++ "\n").utf8ByteSize, v ++ "\n", none, w, 0⟩) ∧
    (w.cntrs.data cid (n.path, n.name) = none →
      ∀ line, w.host n.path = some line →
        ((∃ k, atoi line = some k) →
          KernelPanicOopsHandler.Read n pid 0 w =
            ⟨(line ++ "\n").utf8ByteSize, line ++ "\n", none,
             { w with cntrs := w.cntrs.setData cid n.path n.name line }, 1⟩) ∧
        (atoi line = none →
          KernelPanicOopsHandler.Read n pid 0 w =
            ⟨0, "", some (.ioerror .EINVAL), w, 1⟩)) := by
  refine ⟨?_, ?_⟩
  · intro v hv
    simp [KernelPanicOopsHandler.Read, hres, hv, copyResultBuffer]
  · intro hmiss line hline
    refine ⟨?_, ?_⟩
    · rintro ⟨k, hk⟩
      simp [KernelPanicOopsHandler.Read, hres, hmiss, hline, hk,
        copyResultBuffer]
    · intro hk
      simp [KernelPanicOopsHandler.Read, hres, hmiss, hline, hk]

/-- C1 witness: a first read for container 7 with host line `"0"` serves
`"0\n"`, seeds the cache with `"0"`, and reads the host once. -/
theorem claim_C1_read_resolution_witness :
    w0.cntrs.resolve 100 = some 7 ∧
    w0.cntrs.data 7 (node0.path, node0.name) = none ∧
    w0.host node0.path = some "0" ∧
    KernelPanicOopsHandler.Read node0 100 0 w0 =
      ⟨2, "0\n", none,
       { w0 with cntrs := w0.cntrs.setData 7 node0.path node0.name "0" }, 1⟩ :=
  ⟨rfl, rfl, rfl,
   ((claim_C1_read_resolution node0 100 7 w0 rfl).2 rfl "0" rfl).1
     ⟨0, by decide⟩⟩

/-- C6: for every pid and every offset strictly greater than 0, Read on
kernel_panic_oops returns 0 bytes with EOF, leaving the world untouched and
never reading the host. -/
theorem claim_C6_positive_offset_eof
    (n : IOnode) (pid : Nat) (off : Int) (w : World)
    (hoff : 0 < off) :
    KernelPanicOopsHandler.Read n pid off w = ⟨0, "", some .eof, w, 0⟩ := by
  simp [KernelPanicOopsHandler.Read, hoff]

/-- C6 witness: reading at offset 1, even for an unregistered pid, is EOF. -/
theorem claim_C6_positive_offset_eof_witness :
    (0 : Int) < 1 ∧
    KernelPanicOopsHandler.Read node0 5 1 w0 = ⟨0, "", some .eof, w0, 0⟩ :=
  ⟨by decide, claim_C6_positive_offset_eof node0 5 1 w0 (by decide)⟩

/-- C9: `FsBinfmtRegisterHandler.Lookup` returns ENOENT for every node and
every pid. -/
theorem claim_C9_lookup_enoent (n : IOnode) (pid : Nat) :
    FsBinfmtRegisterHandler.Lookup n pid = .error (.ioerror .ENOENT) := rfl

/-- C2 counterexample: `" 1"` is a valid value (its trimmed content parses
as 1) and the write succeeds with byte count 2, but the following read
returns `"1\n"`, not `" 1" ++ "\n"`: the claim's "returns exactly V followed
by a newline" fails for untrimmed valid values. -/
theorem claim_C2_counterexample :
    (atoi (trimSpace " 1") = some 0 ∨ atoi (trimSpace " 1") = some 1) ∧
    (KernelPanicOopsHandler.Write node0 100 " 1" w0).count =
      (" 1" : String).utf8ByteSize ∧
    (KernelPanicOopsHandler.Write node0 100 " 1" w0).err = none ∧
    (KernelPanicOopsHandler.Read node0 100 0
        (KernelPanicOopsHandler.Write node0 100 " 1" w0).world).served =
      "1\n" ∧
    "1\n" ≠ " 1" ++ "\n" := by decide

/-- C2 (amended): a Write of a valid value V (trimmed content parses as 0 or
1) succeeds with byte count `len(buf)`, and an immediately following Read at
offset 0 from the same container returns exactly the trimmed content of V
followed by a newline. -/
theorem claim_C2_write_then_read
    (n : IOnode) (pid cid : Nat) (w : World) (buf : String)
    (hres : w.cntrs.resolve pid = some cid)
    (hvalid : atoi (trimSpace buf) = some 0 ∨ atoi (trimSpace buf) = some 1) :
    (KernelPanicOopsHandler.Write n pid buf w).count = buf.utf8ByteSize ∧
    (KernelPanicOopsHandler.Write n pid buf w).err = none ∧
    (KernelPanicOopsHandler.Read n pid 0
        (KernelPanicOopsHandler.Write n pid buf w).world).served =
      trimSpace buf ++ "\n" ∧
    (KernelPanicOopsHandler.Read n pid 0
        (KernelPanicOopsHandler.Write n pid buf w).world).err = none := by
  have hw : KernelPanicOopsHandler.Write n pid buf w =
      ⟨buf.utf8ByteSize, none,
       { w with cntrs := w.cntrs.setData cid n.path n.name (trimSpace buf) }⟩ := by
    rcases hvalid with h | h <;> simp [KernelPanicOopsHandler.Write, h, hres]
  rw [hw]
  refine ⟨rfl, rfl, ?_, ?_⟩ <;>
    simp [KernelPanicOopsHandler.Read, hres, ContainerStore.setData,
      copyResultBuffer]

/-- C2 witness: writing `"1"` for container 7 reports 1 byte written and the
following read returns `"1\n"`. -/
theorem claim_C2_write_then_read_witness :
    w0.cntrs.resolve 100 = some 7 ∧
    (atoi (trimSpace "1") = some 0 ∨ atoi (trimSpace "1") = some 1) ∧
    (KernelPanicOopsHandler.Write node0 100 "1" w0).count = 1 ∧
    (KernelPanicOopsHandler.Write node0 100 "1" w0).err = none ∧
    (KernelPanicOopsHandler.Read node0 100 0
        (KernelPanicOopsHandler.Write node0 100 "1" w0).world).served =
      "1\n" := by
  have h := claim_C2_write_then_read node0 100 7 w0 "1" rfl
    (Or.inr (by decide))
  exact ⟨rfl, Or.inr (by decide), h.1, h.2.1, h.2.2.1⟩

/-- C3: a successful Write for container `cid` changes only that container's
cache entry for (path, name): the host is never written, the pid-resolution
map is unchanged, `cid`'s other keys and every other container's cache are
unchanged, and a later Read from a different container still serves that
container's own value. -/
theorem claim_C3_write_frame
    (n : IOnode) (pid cid : Nat) (w : World) (buf : String)
    (hres : w.cntrs.resolve pid = some cid)
    (hvalid : atoi (trimSpace buf) = some 0 ∨ atoi (trimSpace buf) = some 1) :
    (KernelPanicOopsHandler.Write n pid buf w).world.host = w.host ∧
    (KernelPanicOopsHandler.Write n pid buf w).world.cntrs.resolve
      = w.cntrs.resolve ∧
    (∀ k, k ≠ (n.path, n.name) →
      (KernelPanicOopsHandler.Write n pid buf w).world.cntrs.data cid k
        = w.cntrs.data cid k) ∧
    (∀ b, b ≠ cid → ∀ k,
      (KernelPanicOopsHandler.Write n pid buf w).world.cntrs.data b k
        = w.cntrs.data b k) ∧
    (∀ pidB b vB, w.cntrs.resolve pidB = some b → b ≠ cid →
      w.cntrs.data b (n.path, n.name) = some vB →
      (KernelPanicOopsHandler.Read n pidB 0
          (KernelPanicOopsHandler.Write n pid buf w).world).served =
        vB ++ "\n" ∧
      (KernelPanicOopsHandler.Read n pidB 0
          (KernelPanicOopsHandler.Write n pid buf w).world).err = none) := by
  have hw : KernelPanicOopsHandler.Write n pid buf w =
      ⟨buf.utf8ByteSize, none,
       { w with cntrs := w.cntrs.setData cid n.path n.name (trimSpace buf) }⟩ := by
    rcases hvalid with h | h <;> simp [KernelPanicOopsHandler.Write, h, hres]
  rw [hw]
  refine ⟨rfl, rfl, ?_, ?_, ?_⟩
  · intro k hk
    simp [ContainerStore.setData, hk]
  · intro b hb k
    simp [ContainerStore.setData, hb]
  · intro pidB b vB hresB hb hdataB
    constructor <;>
      simp [KernelPanicOopsHandler.Read, hresB, ContainerStore.setData, hb,
        hdataB, copyResultBuffer]

/-- C3 witness: container 9 holds `"0"`; after container 7 writes `"1"`, the
host map is unchanged and a read from container 9 (pid 200) still serves
`"0\n"`. -/
theorem claim_C3_write_frame_witness :
    w1.cntrs.resolve 100 = some 7 ∧
    (atoi (trimSpace "1") = some 0 ∨ atoi (trimSpace "1") = some 1) ∧
    (KernelPanicOopsHandler.Write node0 100 "1" w1).world.host = w1.host ∧
    (KernelPanicOopsHandler.Read node0 200 0
        (KernelPanicOopsHandler.Write node0 100 "1" w1).world).served =
      "0\n" := by
  have h := claim_C3_write_frame node0 100 7 w1 "1" rfl (Or.inr (by decide))
  exact ⟨rfl, Or.inr (by decide), h.1,
    (h.2.2.2.2 200 9 "0" rfl (by decide) (by decide)).1⟩

/-- C4: a Write whose trimmed content is non-numeric, or numeric but outside
{0, 1}, returns EINVAL and leaves the world — in particular the container's
stored value for (path, name) — exactly as it was. -/
theorem claim_C4_invalid_write
    (n : IOnode) (pid : Nat) (w : World) (buf : String)
    (hinv : atoi (trimSpace buf) = none ∨
      ∃ v, atoi (trimSpace buf) = some v ∧ (v < 0 ∨ 1 < v)) :
    KernelPanicOopsHandler.Write n pid buf w =
      ⟨0, some (.ioerror .EINVAL), w⟩ := by
  rcases hinv with h | ⟨v, hv, hrange⟩
  · simp [KernelPanicOopsHandler.Write, h]
  · have hr : v < 0 ∨ v > 1 := by
      rcases hrange with h1 | h1
      · exact Or.inl h1
      · exact Or.inr h1
    simp [KernelPanicOopsHandler.Write, hv, hr]

/-- C4 witness: writing `"5"` (out of range) fails with EINVAL and leaves the
world unchanged. -/
theorem claim_C4_invalid_write_witness :
    (atoi (trimSpace "5") = none ∨
      ∃ v, atoi (trimSpace "5") = some v ∧ (v < 0 ∨ 1 < v)) ∧
    KernelPanicOopsHandler.Write node0 100 "5" w0 =
      ⟨0, some (.ioerror .EINVAL), w0⟩ :=
  ⟨Or.inr ⟨5, by decide, Or.inr (by decide)⟩,
   claim_C4_invalid_write node0 100 w0 "5"
     (Or.inr ⟨5, by decide, Or.inr (by decide)⟩)⟩

/-- C5 counterexample: for unregistered pid 5, a Write of the non-numeric
`"abc"` fails with EINVAL — not with the "container not found" error the
claim asserts for every Write (validation runs before the container
lookup). -/
theorem claim_C5_counterexample :
    w0.cntrs.resolve 5 = none ∧
    (KernelPanicOopsHandler.Write node0 5 "abc" w0).err =
      some (HandlerErr.ioerror Errno.EINVAL) ∧
    some (HandlerErr.ioerror Errno.EINVAL) ≠
      some HandlerErr.containerNotFound := by decide

/-- C5 (amended): for a pid with no registered container, a Read at offset 0
fails with "container not found" and leaves the world untouched; a Write
whose content passes validation (trimmed content parses to a value in
{0, 1}) fails with "container not found"; and every Write — valid or not —
leaves the world (hence every cached value) unchanged. -/
theorem claim_C5_unregistered
    (n : IOnode) (pid : Nat) (w : World)
    (hres : w.cntrs.resolve pid = none) :
    KernelPanicOopsHandler.Read n pid 0 w =
      ⟨0, "", some .containerNotFound, w, 0⟩ ∧
    (∀ buf v, atoi (trimSpace buf) = some v → ¬(v < 0 ∨ 1 < v) →
      KernelPanicOopsHandler.Write n pid buf w =
        ⟨0, some .containerNotFound, w⟩) ∧
    (∀ buf, (KernelPanicOopsHandler.Write n pid buf w).world = w) := by
  refine ⟨?_, ?_, ?_⟩
  · simp [KernelPanicOopsHandler.Read, hres]
  · intro buf v hv hrange
    simp [KernelPanicOopsHandler.Write, hv, hres, hrange]
  · intro buf
    rcases h : atoi (trimSpace buf) with _ | v
    · simp [KernelPanicOopsHandler.Write, h]
    · by_cases hr : v < 0 ∨ v > 1
      · simp [KernelPanicOopsHandler.Write, h, hr]
      · simp [KernelPanicOopsHandler.Write, h, hr, hres]

/-- C5 witness: pid 5 is unregistered in `w0`; a Read fails with "container
not found" and a valid Write of `"1"` does too, leaving the world as it
was. -/
theorem claim_C5_unregistered_witness :
    w0.cntrs.resolve 5 = none ∧
    KernelPanicOopsHandler.Read node0 5 0 w0 =
      ⟨0, "", some .containerNotFound, w0, 0⟩ ∧
    KernelPanicOopsHandler.Write node0 5 "1" w0 =
      ⟨0, some .containerNotFound, w0⟩ := by
  have h := claim_C5_unregistered node0 5 w0 rfl
  exact ⟨rfl, h.1, h.2.1 "1" 1 (by decide) (by decide)⟩

/-- C7: Open on kernel_panic_oops returns EACCES whenever the flags are
neither exactly O_RDONLY nor exactly O_WRONLY (and the adapter then produces
no handle, so the open never reaches Read or Write); with acceptable flags a
failed host open is Eio, and otherwise the open succeeds. -/
theorem claim_C7_open_modes (n : IOnode) :
    (n.openFlags ≠ O_RDONLY ∧ n.openFlags ≠ O_WRONLY →
      KernelPanicOopsHandler.Open n = some (.ioerror .EACCES) ∧
      fileOpenResult (KernelPanicOopsHandler.Open n) =
        .error (.ioerror .EACCES)) ∧
    ((n.openFlags = O_RDONLY ∨ n.openFlags = O_WRONLY) →
      (n.openOk = false →
        KernelPanicOopsHandler.Open n = some (.ioerror .Eio) ∧
        fileOpenResult (KernelPanicOopsHandler.Open n) =
          .error (.ioerror .Eio)) ∧
      (n.openOk = true →
        KernelPanicOopsHandler.Open n = none ∧
        fileOpenResult (KernelPanicOopsHandler.Open n) = .ok ())) := by
  constructor
  · intro h
    simp [KernelPanicOopsHandler.Open, h, fileOpenResult]
  · intro h
    have hne : ¬(n.openFlags ≠ O_RDONLY ∧ n.openFlags ≠ O_WRONLY) := by
      rcases h with h | h <;> simp [h]
    constructor
    · intro hok
      simp [KernelPanicOopsHandler.Open, hne, hok, fileOpenResult]
    · intro hok
      simp [KernelPanicOopsHandler.Open, hne, hok, fileOpenResult]

/-- C7 witness: opening with flags 2 (O_RDWR) is rejected with EACCES and
the adapter propagates the error instead of producing a handle. -/
theorem claim_C7_open_modes_witness :
    (node2.openFlags ≠ O_RDONLY ∧ node2.openFlags ≠ O_WRONLY) ∧
    KernelPanicOopsHandler.Open node2 = some (.ioerror .EACCES) ∧
    fileOpenResult (KernelPanicOopsHandler.Open node2) =
      .error (.ioerror .EACCES) := by
  have h := (claim_C7_open_modes node2).1 (by decide)
  exact ⟨by decide, h.1, h.2⟩

/-- C8: the fuse adapter's Setattr succeeds exactly when the request's Valid
mask includes the size change (bit 3 of the bazil `SetattrValid` mask),
applying nothing else, and returns EPERM exactly when it does not. -/
theorem claim_C8_setattr_size_only (valid : Nat) :
    (File.Setattr valid = none ↔ Nat.testBit valid 3 = true) ∧
    (File.Setattr valid = some Errno.EPERM ↔ Nat.testBit valid 3 = false) := by
  have h8 : (8 : Nat) = 2 ^ 3 := by norm_num
  have hsize : SetattrValid.Size valid = Nat.testBit valid 3 := by
    rcases hb : Nat.testBit valid 3 with _ | _
    · have : valid &&& 8 = 0 := by
        rw [h8, Nat.and_two_pow, hb]; rfl
      simp [SetattrValid.Size, this]
    · have : valid &&& 8 = 8 := by
        rw [h8, Nat.and_two_pow, hb]; norm_num
      simp [SetattrValid.Size, this]
  rcases hb : Nat.testBit valid 3 with _ | _ <;>
    simp [File.Setattr, hsize, hb]

/-- C8 witness: a pure size change (mask 8) succeeds; a pure mode change
(mask 1) is rejected with EPERM. -/
theorem claim_C8_setattr_size_only_witness :
    File.Setattr 8 = none ∧ File.Setattr 1 = some Errno.EPERM :=
  ⟨(claim_C8_setattr_size_only 8).1.mpr (by decide),
   (claim_C8_setattr_size_only 1).2.mpr (by decide)⟩

/-- C10: Write trims leading/trailing whitespace before validating and
storing: the value stored in the container cache is the trimmed string while
the returned byte count is the length of the original untrimmed buffer. -/
theorem claim_C10_trimmed_store
    (n : IOnode) (pid cid : Nat) (w : World) (buf : String)
    (hres : w.cntrs.resolve pid = some cid)
    (hvalid : atoi (trimSpace buf) = some 0 ∨ atoi (trimSpace buf) = some 1) :
    (KernelPanicOopsHandler.Write n pid buf w).count = buf.utf8ByteSize ∧
    (KernelPanicOopsHandler.Write n pid buf w).err = none ∧
    (KernelPanicOopsHandler.Write n pid buf w).world.cntrs.data cid
      (n.path, n.name) = some (trimSpace buf) := by
  have hw : KernelPanicOopsHandler.Write n pid buf w =
      ⟨buf.utf8ByteSize, none,
       { w with cntrs := w.cntrs.setData cid n.path n.name (trimSpace buf) }⟩ := by
    rcases hvalid with h | h <;> simp [KernelPanicOopsHandler.Write, h, hres]
  rw [hw]
  exact ⟨rfl, rfl, by simp [ContainerStore.setData]⟩

/-- C10 witness: writing `" 1\n"` stores `"1"` in container 7's cache and
reports 3 bytes written. -/
theorem claim_C10_trimmed_store_witness :
    w0.cntrs.resolve 100 = some 7 ∧
    (atoi (trimSpace " 1\n") = some 0 ∨ atoi (trimSpace " 1\n") = some 1) ∧
    (KernelPanicOopsHandler.Write node0 100 " 1\n" w0).count = 3 ∧
    (KernelPanicOopsHandler.Write node0 100 " 1\n" w0).world.cntrs.data 7
      (node0.path, node0.name) = some "1" := by
  have h := claim_C10_trimmed_store node0 100 7 w0 " 1\n" rfl
    (Or.inr (by decide))
  exact ⟨rfl, Or.inr (by decide), h.1, h.2.2⟩

end SysboxFs
